import Mathlib

/-!
Verification development for the session-description negotiation subsystem of
the amazon-chime-sdk-js repository: the NScale video uplink bandwidth policy
(NScaleVideoUplinkBandwidthPolicy), the SDP codec-preference reordering
(SDP.withVideoSendCodecPreferences) and the set-local-description task
(SetLocalDescriptionTask).  Numbers that the TypeScript source manipulates
exactly (participant counts, bandwidth values, scale factors) are embedded as
Nat / Int / Rat.
-/

/-- JavaScript Math.trunc on an exact rational: rounds toward zero, that is,
floor on nonnegative values and ceiling on negative ones. -/
def jsTrunc (q : ℚ) : Int := if 0 ≤ q then ⌊q⌋ else ⌈q⌉

/-- Embedding of VideoCodecCapability (src/src/sdp/VideoCodecCapability.ts):
a codec name together with the fields of its RTCRtpCodecCapability. -/
structure VideoCodecCapability where
  codecName : String
  clockRate : Int
  mimeType : String
  sdpFmtpLine : Option String
  deriving DecidableEq

namespace VideoCodecCapability

/-- Static factory vp8 (VideoCodecCapability.ts lines 19-24). -/
def vp8 : VideoCodecCapability :=
  ⟨"VP8", 90000, "video/VP8", none⟩

/-- Static factory h264ConstrainedBaselineProfile (VideoCodecCapability.ts lines 29-35). -/
def h264ConstrainedBaselineProfile : VideoCodecCapability :=
  ⟨"H264", 90000, "video/H264",
    some "level-asymmetry-allowed=1;packetization-mode=1;profile-level-id=42e01f"⟩

/-- Static factory vp9Profile0 (VideoCodecCapability.ts lines 40-46). -/
def vp9Profile0 : VideoCodecCapability :=
  ⟨"VP9", 90000, "video/VP9", some "profile-id=0"⟩

/-- Static factory av1MainProfile (VideoCodecCapability.ts lines 80-85). -/
def av1MainProfile : VideoCodecCapability :=
  ⟨"AV1", 90000, "video/AV1", none⟩

end VideoCodecCapability

/-- Modelled from the spec: the class DefaultVideoCaptureAndEncodeParameter is
imported by the policy but its file is not under src/.  Per spec section 3 a
parameter value carries capture width, height, frame rate, max bandwidth and
scale (plus the simulcast flag that the policy always passes as false), is
immutable per computation, and equality compares those captured fields. -/
structure DefaultVideoAndEncodeParameter where
  cameraWidth : Int
  cameraHeight : Int
  cameraFrameRate : Int
  maxEncodeBitrateKbps : Int
  isSimulcast : Bool
  scaleResolutionDownBy : ℚ
  deriving DecidableEq

namespace DefaultVideoAndEncodeParameter

/-- Modelled from the spec: clone produces a copy of the immutable value. -/
def clone (p : DefaultVideoAndEncodeParameter) : DefaultVideoAndEncodeParameter := p

/-- Modelled from the spec: equal compares the captured fields. -/
def equal (p other : DefaultVideoAndEncodeParameter) : Bool :=
  decide (p = other)

end DefaultVideoAndEncodeParameter

/-- Live captured track settings as obtained from getSettings(); width and
height may each be absent. -/
structure MediaTrackSettings where
  width : Option ℚ
  height : Option ℚ
  deriving DecidableEq

/-- An RTCRtpEncodingParameters value as computed by the policy: both fields
are always populated (calculateEncodingParameters always sets them). -/
structure RTCRtpEncodingParameters where
  maxBitrate : Int
  scaleResolutionDownBy : ℚ
  deriving DecidableEq

/-- An RTCRtpEncodingParameters value as observed on the wire / stored in the
encoding map: each field may be absent, mirroring the optional fields of the
DOM dictionary (for instance the constructor seeds the map with only
maxBitrate set, and sender.getParameters()?.encodings?.[0] may be absent). -/
structure RTCRtpEncodingParametersOpt where
  maxBitrate : Option Int
  scaleResolutionDownBy : Option ℚ
  deriving DecidableEq

/-- State of the external transceiver controller as far as the policy observes
it: whether a video input is attached, the live captured track settings
(sender.track?.getSettings()), and the first encoding currently present on the
sender (sender.getParameters()?.encodings?.[0]).  A push through
setEncodingParameters installs the pushed encoding on the sender. -/
structure TransceiverControllerState where
  hasVideoInput : Bool
  trackSettings : Option MediaTrackSettings
  senderEncoding : Option RTCRtpEncodingParametersOpt
  deriving DecidableEq

/-- State of NScaleVideoUplinkBandwidthPolicy (src/unnamed/part_000, fields at
lines 48-56 plus the constructor arguments). -/
structure NScaleVideoUplinkBandwidthPolicy where
  selfAttendeeId : String
  scaleResolution : Bool
  numParticipants : Nat
  optimalParameters : DefaultVideoAndEncodeParameter
  parametersInEffect : DefaultVideoAndEncodeParameter
  idealMaxBandwidthKbps : ℚ
  hasBandwidthPriority : Bool
  encodingParamMap : Option RTCRtpEncodingParametersOpt
  transceiverController : Option TransceiverControllerState
  videoCodecPreferences : List VideoCodecCapability
  wantsResubscribeForVideoCodecPreferenceChange : Bool
  deriving DecidableEq

namespace NScaleVideoUplinkBandwidthPolicy

/-- Static targetHeightArray (part_000 lines 19-46). -/
def targetHeightArray : List Int :=
  [0, 0, 0, 540, 540, 480, 480, 480, 480, 360, 360, 360, 360,
   270, 270, 270, 270, 180, 180, 180, 180, 180, 180, 180, 180, 180]

/-- Constructor (part_000 lines 58-68): zeroed parameters, ideal bandwidth
1400, no priority, encoding map seeded with maxBitrate 0 under the video key. -/
def init (selfAttendeeId : String) (scaleResolution : Bool) :
    NScaleVideoUplinkBandwidthPolicy :=
  { selfAttendeeId := selfAttendeeId
    scaleResolution := scaleResolution
    numParticipants := 0
    optimalParameters := ⟨0, 0, 0, 0, false, 1⟩
    parametersInEffect := ⟨0, 0, 0, 0, false, 1⟩
    idealMaxBandwidthKbps := 1400
    hasBandwidthPriority := false
    encodingParamMap := some ⟨some 0, none⟩
    transceiverController := none
    videoCodecPreferences := []
    wantsResubscribeForVideoCodecPreferenceChange := false }

/-- maxBandwidthKbps (part_000 lines 141-154).  Math.trunc is applied to the
ideal bandwidth in the priority branch and to the computed rate otherwise. -/
def maxBandwidthKbps (s : NScaleVideoUplinkBandwidthPolicy) : Int :=
  if s.hasBandwidthPriority then
    jsTrunc s.idealMaxBandwidthKbps
  else
    let rate : ℚ :=
      if s.numParticipants ≤ 2 then
        s.idealMaxBandwidthKbps
      else if s.numParticipants ≤ 4 then
        s.idealMaxBandwidthKbps * 2 / 3
      else
        ((544 / 11 + 14880 / (11 * (s.numParticipants : ℚ))) / 600) *
          s.idealMaxBandwidthKbps
    jsTrunc rate

/-- captureWidth (part_000 lines 121-127). -/
def captureWidth (s : NScaleVideoUplinkBandwidthPolicy) : Int :=
  if 4 < s.numParticipants then 320 else 640

/-- captureHeight (part_000 lines 129-135). -/
def captureHeight (s : NScaleVideoUplinkBandwidthPolicy) : Int :=
  if 4 < s.numParticipants then 192 else 384

/-- captureFrameRate (part_000 lines 137-139). -/
def captureFrameRate (_s : NScaleVideoUplinkBandwidthPolicy) : Int := 15

/-- calculateEncodingParameters (part_000 lines 192-220). -/
def calculateEncodingParameters (s : NScaleVideoUplinkBandwidthPolicy)
    (setting : MediaTrackSettings) : RTCRtpEncodingParameters :=
  let maxBitrate := maxBandwidthKbps s * 1000
  let scale : ℚ :=
    match setting.height, setting.width with
    | some h, some w =>
      if s.scaleResolution = true ∧ s.hasBandwidthPriority = false ∧
          2 < s.numParticipants then
        let targetHeight : Int :=
          targetHeightArray.getD
            (min s.numParticipants (targetHeightArray.length - 1)) 0
        max (min h w / (targetHeight : ℚ)) 1
      else 1
    | _, _ => 1
  ⟨maxBitrate, scale⟩

/-- Local computation hasLocalVideo of updateIndex (part_000 lines 83-87):
true when no transceiver controller is installed, else hasVideoInput(). -/
def hasLocalVideo (s : NScaleVideoUplinkBandwidthPolicy) : Bool :=
  match s.transceiverController with
  | none => true
  | some tc => tc.hasVideoInput

/-- getStreamCaptureSetting (part_000 lines 222-224). -/
def getStreamCaptureSetting (s : NScaleVideoUplinkBandwidthPolicy) :
    Option MediaTrackSettings :=
  s.transceiverController.bind fun tc => tc.trackSettings

/-- updateIndex (part_000 lines 82-110); the count supplied by the external
video stream index, videoIndex.numberOfVideoPublishingParticipantsExcludingSelf,
is passed as the argument. -/
def updateIndex (s : NScaleVideoUplinkBandwidthPolicy)
    (publishingCountExcludingSelf : Nat) : NScaleVideoUplinkBandwidthPolicy :=
  let s1 := { s with
    numParticipants :=
      publishingCountExcludingSelf + (if hasLocalVideo s then 1 else 0) }
  let scale : ℚ :=
    match s1.transceiverController with
    | none => 1
    | some tc =>
      match tc.trackSettings with
      | none => 1
      | some st => (calculateEncodingParameters s1 st).scaleResolutionDownBy
  { s1 with
    optimalParameters :=
      ⟨captureWidth s1, captureHeight s1, captureFrameRate s1,
       maxBandwidthKbps s1, false, scale⟩ }

/-- wantsResubscribe (part_000 lines 112-114). -/
def wantsResubscribe (s : NScaleVideoUplinkBandwidthPolicy) : Bool :=
  s.wantsResubscribeForVideoCodecPreferenceChange ||
    !(s.parametersInEffect.equal s.optimalParameters)

/-- chooseCaptureAndEncodeParameters (part_000 lines 116-119): snapshots
optimalParameters into parametersInEffect and returns a copy. -/
def chooseCaptureAndEncodeParameters (s : NScaleVideoUplinkBandwidthPolicy) :
    NScaleVideoUplinkBandwidthPolicy × DefaultVideoAndEncodeParameter :=
  let s1 := { s with parametersInEffect := s.optimalParameters.clone }
  (s1, s1.parametersInEffect.clone)

/-- setIdealMaxBandwidthKbps (part_000 lines 156-158). -/
def setIdealMaxBandwidthKbps (s : NScaleVideoUplinkBandwidthPolicy) (v : ℚ) :
    NScaleVideoUplinkBandwidthPolicy :=
  { s with idealMaxBandwidthKbps := v }

/-- setHasBandwidthPriority (part_000 lines 160-162). -/
def setHasBandwidthPriority (s : NScaleVideoUplinkBandwidthPolicy) (b : Bool) :
    NScaleVideoUplinkBandwidthPolicy :=
  { s with hasBandwidthPriority := b }

/-- setTransceiverController (part_000 lines 164-166). -/
def setTransceiverController (s : NScaleVideoUplinkBandwidthPolicy)
    (tc : Option TransceiverControllerState) : NScaleVideoUplinkBandwidthPolicy :=
  { s with transceiverController := tc }

/-- shouldUpdateEndcodingParameters (part_000 lines 180-190; the source name
carries this spelling): compares the freshly computed encoding against the
first encoding currently on the sender. -/
def shouldUpdateEndcodingParameters (tc : TransceiverControllerState)
    (encoding : RTCRtpEncodingParameters) : Bool :=
  decide (some encoding.maxBitrate ≠ tc.senderEncoding.bind fun e => e.maxBitrate) ||
    decide (some encoding.scaleResolutionDownBy ≠
      tc.senderEncoding.bind fun e => e.scaleResolutionDownBy)

/-- updateTransceiverController (part_000 lines 168-178).  The Bool result
records whether the encoding was pushed to the transceiver controller through
setEncodingParameters; a push installs the encoding on the sender. -/
def updateTransceiverController (s : NScaleVideoUplinkBandwidthPolicy) :
    NScaleVideoUplinkBandwidthPolicy × Bool :=
  match s.transceiverController with
  | none => (s, false)
  | some tc =>
    match tc.trackSettings with
    | none => (s, false)
    | some settings =>
      let encodingParams := calculateEncodingParameters s settings
      if shouldUpdateEndcodingParameters tc encodingParams then
        ({ s with
            encodingParamMap :=
              some ⟨some encodingParams.maxBitrate,
                    some encodingParams.scaleResolutionDownBy⟩
            transceiverController :=
              some { tc with
                senderEncoding :=
                  some ⟨some encodingParams.maxBitrate,
                        some encodingParams.scaleResolutionDownBy⟩ } }, true)
      else (s, false)

/-- setVideoCodecPreferences (part_000 lines 226-229). -/
def setVideoCodecPreferences (s : NScaleVideoUplinkBandwidthPolicy)
    (preferences : List VideoCodecCapability) : NScaleVideoUplinkBandwidthPolicy :=
  { s with
    videoCodecPreferences := preferences
    wantsResubscribeForVideoCodecPreferenceChange := true }

/-- chooseVideoCodecPreferences (part_000 lines 231-234): clears the pending
flag and returns the stored list. -/
def chooseVideoCodecPreferences (s : NScaleVideoUplinkBandwidthPolicy) :
    NScaleVideoUplinkBandwidthPolicy × List VideoCodecCapability :=
  ({ s with wantsResubscribeForVideoCodecPreferenceChange := false },
   s.videoCodecPreferences)

end NScaleVideoUplinkBandwidthPolicy

/-- One public operation on the policy object.  The two pure getters are
included so that frame properties can quantify over every operation. -/
inductive PolicyOp where
  | updateIndex (publishingCountExcludingSelf : Nat)
  | wantsResubscribe
  | maxBandwidthKbps
  | chooseCaptureAndEncodeParameters
  | setIdealMaxBandwidthKbps (v : ℚ)
  | setHasBandwidthPriority (b : Bool)
  | setTransceiverController (tc : Option TransceiverControllerState)
  | setVideoCodecPreferences (preferences : List VideoCodecCapability)
  | chooseVideoCodecPreferences
  | updateTransceiverController
  deriving DecidableEq

/-- Effect of one operation on the policy state (return values dropped). -/
def applyOp (s : NScaleVideoUplinkBandwidthPolicy) : PolicyOp →
    NScaleVideoUplinkBandwidthPolicy
  | .updateIndex n => s.updateIndex n
  | .wantsResubscribe => s
  | .maxBandwidthKbps => s
  | .chooseCaptureAndEncodeParameters => s.chooseCaptureAndEncodeParameters.1
  | .setIdealMaxBandwidthKbps v => s.setIdealMaxBandwidthKbps v
  | .setHasBandwidthPriority b => s.setHasBandwidthPriority b
  | .setTransceiverController tc => s.setTransceiverController tc
  | .setVideoCodecPreferences prefs => s.setVideoCodecPreferences prefs
  | .chooseVideoCodecPreferences => s.chooseVideoCodecPreferences.1
  | .updateTransceiverController => s.updateTransceiverController.1

/-- Run a sequence of operations from a given state. -/
def runOps (s : NScaleVideoUplinkBandwidthPolicy) (ops : List PolicyOp) :
    NScaleVideoUplinkBandwidthPolicy :=
  ops.foldl applyOp s

/-- Policy freshly constructed and fed one updateIndex with the given external
publishing count; with no transceiver controller installed the local side
counts as one participant. -/
def defaultPolicyWith (publishingCountExcludingSelf : Nat) :
    NScaleVideoUplinkBandwidthPolicy :=
  (NScaleVideoUplinkBandwidthPolicy.init "self" true).updateIndex
    publishingCountExcludingSelf

/-- Modelled from the spec: a CodecEntry of spec section 3, the derived view
of one payload type of the sending video media section as seen by the
reordering algorithm of spec section 4.2 (withVideoSendCodecPreferences;
DefaultSDP, the implementation of the SDP interface of src/src/sdp/SDP.ts, is
not under src/).  An entry carries its payload-type integer, the codec name
from its rtpmap line, the parameter string of its fmtp line if any, and the
payload type referenced through an apt= fmtp parameter when the entry is a
retransmission (rtx) pairing of that referenced type. -/
structure PayloadCodec where
  pt : Nat
  codecName : String
  fmtp : Option String
  apt : Option Nat
  deriving DecidableEq

/-- Modelled from the spec: a payload type whose fmtp references another
payload type via an apt= parameter is the rtx pairing of that referenced
type. -/
def aptOf (e : PayloadCodec) : Option Nat := e.apt

/-- Modelled from the spec: classification of an existing payload type against
one preference entry by matching the codec name and the fmtp parameters of the
preference (spec section 4.2 step 1). -/
def matchesPreference (e : PayloadCodec) (cap : VideoCodecCapability) : Bool :=
  e.codecName == cap.codecName &&
    (match cap.sdpFmtpLine with
     | none => true
     | some f => e.fmtp == some f)

/-- Primary (non-rtx) payload types of a section, in their original order. -/
def primaryCodecs (entries : List PayloadCodec) : List PayloadCodec :=
  entries.filter fun e => (aptOf e).isNone

/-- Rtx payload types of a section whose apt= parameter references the given
payload type. -/
def rtxPartners (entries : List PayloadCodec) (pt : Nat) : List PayloadCodec :=
  entries.filter fun e => aptOf e == some pt

/-- Modelled from the spec: step 2 of the reordering algorithm, iterating the
preferences in caller order and appending the present matching primary payload
types that have not yet been placed. -/
def placeMatched (primaries : List PayloadCodec)
    (preferences : List VideoCodecCapability) : List PayloadCodec :=
  preferences.foldl
    (fun acc cap =>
      acc ++ primaries.filter fun e =>
        matchesPreference e cap && !(acc.any fun a => a.pt == e.pt))
    []

/-- Modelled from the spec: withVideoSendCodecPreferences (spec section 4.2).
Matched primaries come first in preference order, then the remaining primaries
in original relative order, each primary immediately followed by its rtx
pairing; with empty preferences the section is left untouched (step 5). -/
def withVideoSendCodecPreferences (entries : List PayloadCodec)
    (preferences : List VideoCodecCapability) : List PayloadCodec :=
  if preferences.isEmpty then entries
  else
    let primaries := primaryCodecs entries
    let placed := placeMatched primaries preferences
    let newOrder :=
      placed ++ primaries.filter fun e => !(placed.any fun a => a.pt == e.pt)
    newOrder.foldr (fun p acc => p :: (rtxPartners entries p.pt ++ acc)) []

/-- Payload-type order of a section. -/
def payloadTypes (entries : List PayloadCodec) : List Nat :=
  entries.map fun e => e.pt

/-- Helper for the rtx-adjacency invariant: scans a section carrying the
payload type of the previous element; an rtx element is accepted only when the
previous element is exactly its referenced primary. -/
def rtxAdjacentFrom (prev : Option Nat) : List PayloadCodec → Bool
  | [] => true
  | e :: rest =>
    (match aptOf e with
     | none => true
     | some q => prev == some q) && rtxAdjacentFrom (some e.pt) rest

/-- Invariant of spec section 3: every rtx payload type appears immediately
after its associated primary codec. -/
def rtxAdjacent (entries : List PayloadCodec) : Bool :=
  rtxAdjacentFrom none entries

/-- The sending video section of claim C2: payload order [96, 97, 98, 99]
where 96 is VP8 with 97 as its rtx, and 98 is H264 constrained-baseline with
99 as its rtx. -/
def exampleVideoSection : List PayloadCodec :=
  [⟨96, "VP8", none, none⟩,
   ⟨97, "rtx", some "apt=96", some 96⟩,
   ⟨98, "H264",
     some "level-asymmetry-allowed=1;packetization-mode=1;profile-level-id=42e01f",
     none⟩,
   ⟨99, "rtx", some "apt=98", some 98⟩]

/-- Terminal error of a SetLocalDescriptionTask run
(src/src/task/SetLocalDescriptionTask.ts): either the cancellation error
constructed inside cancel() (the Error carrying the canceling-task message,
lines 21-29) or an error with which the negotiation endpoint's
setLocalDescription rejected (propagated unchanged, lines 71-78). -/
inductive TaskError where
  | cancelled
  | endpoint
  deriving DecidableEq

/-- Settlement state of the promise awaited at the single suspension point of
run() (SetLocalDescriptionTask.ts lines 66-79).  A promise settles at most
once: later resolutions and rejections are ignored. -/
inductive PromiseState where
  | pending
  | resolvedOk
  | rejected (e : TaskError)
  deriving DecidableEq

/-- State of one run of SetLocalDescriptionTask once it has reached the
suspension point: whether the cancellation hook cancelPromise is registered,
the settlement state of the awaited promise, and how many times the
negotiation endpoint's commit (peer.setLocalDescription) has been invoked. -/
structure TaskState where
  cancelPromise : Bool
  promise : PromiseState
  commitCalls : Nat
  deriving DecidableEq

/-- Events that can reach the suspended run: an invocation of the task's
cancel() method, or the return of the awaited setLocalDescription call with a
success flag (false models a rejection by the endpoint). -/
inductive TaskEv where
  | cancel
  | commitReturn (ok : Bool)
  deriving DecidableEq

/-- Settle-once semantics of a promise: a settlement attempt on an already
settled promise is ignored. -/
def settle (p r : PromiseState) : PromiseState :=
  match p with
  | .pending => r
  | _ => p

/-- One event processed against a suspended run.  cancel()
(SetLocalDescriptionTask.ts lines 21-29) rejects through the registered hook
with the cancellation error and deletes the hook, and does nothing when no
hook is registered; the return of setLocalDescription (lines 71-78) resolves
on success or rejects with the endpoint error, and in either case the finally
block deletes the hook. -/
def taskStep (st : TaskState) : TaskEv → TaskState
  | .cancel =>
    if st.cancelPromise then
      { st with
        promise := settle st.promise (.rejected .cancelled)
        cancelPromise := false }
    else st
  | .commitReturn ok =>
    { st with
      promise := settle st.promise (if ok then .resolvedOk else .rejected .endpoint)
      cancelPromise := false }

/-- State of run() right after it enters the awaited promise executor
(SetLocalDescriptionTask.ts lines 66-72): the cancellation hook is registered
and peer.setLocalDescription has been invoked exactly once; the promise is
still pending. -/
def initialRunState : TaskState :=
  { cancelPromise := true, promise := .pending, commitCalls := 1 }

/-- Outcome of one run of the task under a given interleaving of events at the
suspension point. -/
def runTask (evs : List TaskEv) : TaskState :=
  evs.foldl taskStep initialRunState

/-- Bandwidth formula exactly as claim C1 states it, as a rational so that the
unfloored branch can be expressed: floor of the ideal bandwidth under
priority, the raw ideal bandwidth for at most two participants, and floored
rates for the larger branches. -/
def claimedMaxBandwidthKbps (s : NScaleVideoUplinkBandwidthPolicy) : ℚ :=
  if s.hasBandwidthPriority then ((⌊s.idealMaxBandwidthKbps⌋ : Int) : ℚ)
  else if s.numParticipants ≤ 2 then s.idealMaxBandwidthKbps
  else if s.numParticipants ≤ 4 then ((⌊s.idealMaxBandwidthKbps * 2 / 3⌋ : Int) : ℚ)
  else
    ((⌊((544 / 11 + 14880 / (11 * (s.numParticipants : ℚ))) / 600) *
        s.idealMaxBandwidthKbps⌋ : Int) : ℚ)

/-- Recognizer for setVideoCodecPreferences operations. -/
def isSetVideoCodecPreferencesOp : PolicyOp → Bool
  | .setVideoCodecPreferences _ => true
  | _ => false

/-- Recognizer for chooseVideoCodecPreferences operations. -/
def isChooseVideoCodecPreferencesOp : PolicyOp → Bool
  | .chooseVideoCodecPreferences => true
  | _ => false

/-- A codec-preference change is pending acknowledgment after a sequence of
operations when setVideoCodecPreferences was called and
chooseVideoCodecPreferences has not been called since, that is, when the most
recent of those two operations in the sequence is a set. -/
def codecPreferenceChangePending (ops : List PolicyOp) : Bool :=
  match ops.reverse.find? (fun op =>
      isSetVideoCodecPreferencesOp op || isChooseVideoCodecPreferencesOp op) with
  | some op => isSetVideoCodecPreferencesOp op
  | none => false

/-- Concrete policy state for exercising the resolution scale-down: three
participants, no bandwidth priority, scaling enabled. -/
def exampleScaleState : NScaleVideoUplinkBandwidthPolicy :=
  { NScaleVideoUplinkBandwidthPolicy.init "self" true with numParticipants := 3 }

/-- Concrete live captured track settings of a 1280 by 720 camera. -/
def exampleSetting : MediaTrackSettings :=
  ⟨some 1280, some 720⟩

/-- Concrete transceiver controller with a live 1280 by 720 video input and no
encoding installed on the sender yet. -/
def exampleTransceiver : TransceiverControllerState :=
  ⟨true, some ⟨some 1280, some 720⟩, none⟩

/-- Concrete policy state holding the example transceiver controller. -/
def examplePushState : NScaleVideoUplinkBandwidthPolicy :=
  (NScaleVideoUplinkBandwidthPolicy.init "self" true).setTransceiverController
    (some exampleTransceiver)

open NScaleVideoUplinkBandwidthPolicy

theorem jsTrunc_eq_floor (q : ℚ) (h : 0 ≤ q) : jsTrunc q = ⌊q⌋ := by
  simp [jsTrunc, h]

/-- Claim C1 (amended): for every policy state with a nonnegative ideal
bandwidth, maxBandwidthKbps() returns floor(idealMaxBandwidthKbps) when
hasBandwidthPriority is set and also when numParticipants is at most 2 (the
code truncates the rate of every branch, so the n-at-most-2 branch is floored
too, unlike the claim's unfloored reading), floor(idealMaxBandwidthKbps * 2/3)
when 2 < numParticipants and numParticipants is at most 4, and
floor(((544/11 + 14880/(11*numParticipants)) / 600) * idealMaxBandwidthKbps)
when numParticipants > 4; in particular it returns 1400 for numParticipants in
one and two and 933 for numParticipants equal to four at the default ideal
bandwidth. -/
theorem claim_C1_theorem :
    (∀ s : NScaleVideoUplinkBandwidthPolicy, 0 ≤ s.idealMaxBandwidthKbps →
      s.maxBandwidthKbps =
        (if s.hasBandwidthPriority then ⌊s.idealMaxBandwidthKbps⌋
         else if s.numParticipants ≤ 2 then ⌊s.idealMaxBandwidthKbps⌋
         else if s.numParticipants ≤ 4 then ⌊s.idealMaxBandwidthKbps * 2 / 3⌋
         else
           ⌊((544 / 11 + 14880 / (11 * (s.numParticipants : ℚ))) / 600) *
             s.idealMaxBandwidthKbps⌋)) ∧
    maxBandwidthKbps (defaultPolicyWith 0) = 1400 ∧
    maxBandwidthKbps (defaultPolicyWith 1) = 1400 ∧
    maxBandwidthKbps (defaultPolicyWith 3) = 933 := by
  refine ⟨?_, ?_, ?_, ?_⟩
  · intro s h
    unfold NScaleVideoUplinkBandwidthPolicy.maxBandwidthKbps
    by_cases hp : s.hasBandwidthPriority
    · simp only [hp, if_pos]
      exact jsTrunc_eq_floor _ h
    · simp only [hp, if_neg, Bool.false_eq_true, if_false]
      split_ifs with h2 h4
      · exact jsTrunc_eq_floor _ h
      · exact jsTrunc_eq_floor _
          (div_nonneg (mul_nonneg h (by norm_num)) (by norm_num))
      · refine jsTrunc_eq_floor _ (mul_nonneg (div_nonneg ?_ (by norm_num)) h)
        have hn : (0:ℚ) ≤ 11 * (s.numParticipants : ℚ) := by positivity
        exact add_nonneg (by norm_num) (div_nonneg (by norm_num) hn)
  · norm_num [defaultPolicyWith, init, updateIndex, maxBandwidthKbps, jsTrunc,
      hasLocalVideo]
  · norm_num [defaultPolicyWith, init, updateIndex, maxBandwidthKbps, jsTrunc,
      hasLocalVideo]
  · norm_num [defaultPolicyWith, init, updateIndex, maxBandwidthKbps, jsTrunc,
      hasLocalVideo]

/-- Witness for claim C1: the amended formula applied to the concrete reachable
state with five participants at the default ideal bandwidth. -/
theorem claim_C1_witness :
    0 ≤ (defaultPolicyWith 4).idealMaxBandwidthKbps ∧
    maxBandwidthKbps (defaultPolicyWith 4) =
      (if (defaultPolicyWith 4).hasBandwidthPriority then
        ⌊(defaultPolicyWith 4).idealMaxBandwidthKbps⌋
       else if (defaultPolicyWith 4).numParticipants ≤ 2 then
        ⌊(defaultPolicyWith 4).idealMaxBandwidthKbps⌋
       else if (defaultPolicyWith 4).numParticipants ≤ 4 then
        ⌊(defaultPolicyWith 4).idealMaxBandwidthKbps * 2 / 3⌋
       else
        ⌊((544 / 11 + 14880 / (11 * ((defaultPolicyWith 4).numParticipants : ℚ))) / 600) *
          (defaultPolicyWith 4).idealMaxBandwidthKbps⌋) := by
  have h0 : 0 ≤ (defaultPolicyWith 4).idealMaxBandwidthKbps := by
    norm_num [defaultPolicyWith, init, updateIndex, hasLocalVideo]
  exact ⟨h0, claim_C1_theorem.1 _ h0⟩

/-- Counterexample to claim C1 as stated: in the reachable state obtained by
setIdealMaxBandwidthKbps(1400.5) on a fresh policy (numParticipants 0, no
priority), the code returns Math.trunc(1400.5) = 1400 while the claim's
n-at-most-2 branch returns the unfloored ideal bandwidth 1400.5. -/
theorem claim_C1_counterexample :
    (maxBandwidthKbps ((init "self" true).setIdealMaxBandwidthKbps (2801 / 2)) : ℚ) ≠
      claimedMaxBandwidthKbps ((init "self" true).setIdealMaxBandwidthKbps (2801 / 2)) := by
  norm_num [claimedMaxBandwidthKbps, init, setIdealMaxBandwidthKbps,
    maxBandwidthKbps, jsTrunc]

/-- Helper: a member of the rtx partner list of a payload type references that
payload type. -/
theorem rtxPartners_mem_apt {entries : List PayloadCodec} {q : Nat}
    {r : PayloadCodec} (h : r ∈ rtxPartners entries q) : aptOf r = some q := by
  have := List.of_mem_filter h
  simpa using this

/-- Helper: expanding an order of primary payload types with the rtx partners
of each keeps every rtx immediately after its primary, provided each primary
has at most one rtx partner. -/
theorem rtxAdjacentFrom_foldr (entries : List PayloadCodec) :
    ∀ (order : List PayloadCodec) (prev : Option Nat),
      (∀ p ∈ order, aptOf p = none) →
      (∀ p ∈ order, (rtxPartners entries p.pt).length ≤ 1) →
      rtxAdjacentFrom prev
        (order.foldr (fun p acc => p :: (rtxPartners entries p.pt ++ acc)) []) = true
  | [], _, _, _ => rfl
  | p :: rest, prev, hnone, hlen => by
    have hp : aptOf p = none := hnone p (List.mem_cons_self _ _)
    have hrest1 : ∀ x ∈ rest, aptOf x = none := fun x hx =>
      hnone x (List.mem_cons_of_mem _ hx)
    have hrest2 : ∀ x ∈ rest, (rtxPartners entries x.pt).length ≤ 1 := fun x hx =>
      hlen x (List.mem_cons_of_mem _ hx)
    simp only [List.foldr_cons]
    match hl : rtxPartners entries p.pt with
    | [] =>
      simp only [rtxAdjacentFrom, hp, hl, List.nil_append, Bool.true_and]
      exact rtxAdjacentFrom_foldr entries rest (some p.pt) hrest1 hrest2
    | [r] =>
      have hr : aptOf r = some p.pt :=
        rtxPartners_mem_apt (by rw [hl]; exact List.mem_singleton_self r)
      simp only [rtxAdjacentFrom, hp, hl, List.cons_append, List.nil_append,
        Bool.true_and, hr, beq_self_eq_true]
      exact rtxAdjacentFrom_foldr entries rest (some r.pt) hrest1 hrest2
    | r1 :: r2 :: rs =>
      exfalso
      have := hlen p (List.mem_cons_self _ _)
      rw [hl] at this
      simp at this

/-- Helper: everything accumulated by the placement fold of step 2 comes from
the accumulator or from the primary payload types. -/
theorem placeMatched_foldl_mem
    (primaries : List PayloadCodec) :
    ∀ (preferences : List VideoCodecCapability) (acc : List PayloadCodec)
      (x : PayloadCodec),
      x ∈ preferences.foldl
        (fun acc cap =>
          acc ++ primaries.filter fun e =>
            matchesPreference e cap && !(acc.any fun a => a.pt == e.pt)) acc →
      x ∈ acc ∨ x ∈ primaries
  | [], acc, x, h => Or.inl h
  | cap :: rest, acc, x, h => by
    rcases placeMatched_foldl_mem primaries rest _ x h with h1 | h2
    · rcases List.mem_append.mp h1 with h3 | h4
      · exact Or.inl h3
      · exact Or.inr (List.mem_of_mem_filter h4)
    · exact Or.inr h2

/-- Helper: every payload type placed by step 2 is one of the primaries. -/
theorem placeMatched_mem {primaries : List PayloadCodec}
    {preferences : List VideoCodecCapability} {x : PayloadCodec}
    (h : x ∈ placeMatched primaries preferences) : x ∈ primaries := by
  rcases placeMatched_foldl_mem primaries preferences [] x h with h1 | h2
  · simp at h1
  · exact h2

/-- Claim C2: on the sending video section with payload order [96, 97, 98, 99]
where 98 is H264 and 99 its rtx pairing, withVideoSendCodecPreferences with
the single preference H264 yields the payload order [98, 99, 96, 97]; and in
every reordering produced on a section whose primaries each have at most one
rtx pairing with a nonempty preference list, each rtx payload type appears
immediately after its associated primary codec. -/
theorem claim_C2_theorem :
    payloadTypes (withVideoSendCodecPreferences exampleVideoSection
      [VideoCodecCapability.h264ConstrainedBaselineProfile]) = [98, 99, 96, 97] ∧
    (∀ (entries : List PayloadCodec) (preferences : List VideoCodecCapability),
      preferences ≠ [] →
      (∀ p ∈ primaryCodecs entries, (rtxPartners entries p.pt).length ≤ 1) →
      rtxAdjacent (withVideoSendCodecPreferences entries preferences) = true) := by
  constructor
  · decide
  · intro entries preferences hne hlen
    have hempty : preferences.isEmpty = false := by
      cases preferences with
      | nil => exact absurd rfl hne
      | cons a l => rfl
    unfold withVideoSendCodecPreferences
    rw [hempty]
    simp only [Bool.false_eq_true, if_false]
    apply rtxAdjacentFrom_foldr
    · intro p hp
      have hmem : p ∈ primaryCodecs entries := by
        rcases List.mem_append.mp hp with h1 | h2
        · exact placeMatched_mem h1
        · exact List.mem_of_mem_filter h2
      have := List.of_mem_filter hmem
      simpa [Option.isNone_iff_eq_none] using this
    · intro p hp
      apply hlen
      rcases List.mem_append.mp hp with h1 | h2
      · exact placeMatched_mem h1
      · exact List.mem_of_mem_filter h2

/-- Witness for claim C2: the adjacency invariant applied to the concrete
example section with the VP8 preference. -/
theorem claim_C2_witness :
    rtxAdjacent (withVideoSendCodecPreferences exampleVideoSection
      [VideoCodecCapability.vp8]) = true :=
  claim_C2_theorem.2 exampleVideoSection [VideoCodecCapability.vp8]
    (by decide) (by decide)

/-- Helper: no event changes the number of commit invocations. -/
theorem taskStep_commitCalls (st : TaskState) (ev : TaskEv) :
    (taskStep st ev).commitCalls = st.commitCalls := by
  cases ev with
  | cancel => cases hc : st.cancelPromise <;> simp [taskStep, hc]
  | commitReturn ok => rfl

/-- Helper: the commit count is invariant under any event sequence. -/
theorem foldl_taskStep_commitCalls :
    ∀ (evs : List TaskEv) (st : TaskState),
      (evs.foldl taskStep st).commitCalls = st.commitCalls
  | [], _ => rfl
  | ev :: rest, st => by
    rw [List.foldl_cons, foldl_taskStep_commitCalls rest, taskStep_commitCalls]

/-- Helper: once the promise is settled and the cancellation hook removed, no
further event changes the outcome. -/
theorem foldl_taskStep_settled :
    ∀ (evs : List TaskEv) (st : TaskState),
      st.cancelPromise = false → st.promise ≠ .pending →
      (evs.foldl taskStep st).promise = st.promise ∧
        (evs.foldl taskStep st).cancelPromise = false
  | [], st, hc, _ => ⟨rfl, hc⟩
  | ev :: rest, st, hc, hp => by
    rw [List.foldl_cons]
    cases ev with
    | cancel =>
      have : taskStep st .cancel = st := by
        unfold taskStep
        rw [hc]
        rfl
      rw [this]
      exact foldl_taskStep_settled rest st hc hp
    | commitReturn ok =>
      have hs : settle st.promise (if ok then .resolvedOk else .rejected .endpoint) =
          st.promise := by
        cases h : st.promise with
        | pending => exact absurd h hp
        | resolvedOk => rfl
        | rejected e => rfl
      have h1 : (taskStep st (.commitReturn ok)).promise = st.promise := by
        simp [taskStep, hs]
      have h2 : (taskStep st (.commitReturn ok)).cancelPromise = false := rfl
      have := foldl_taskStep_settled rest (taskStep st (.commitReturn ok)) h2
        (by rw [h1]; exact hp)
      rw [h1] at this
      exact this

/-- Helper: a nonempty burst of cancel invocations against the freshly
suspended run rejects the awaited promise with the cancellation error and
removes the hook. -/
theorem cancel_events_reject :
    ∀ (pre : List TaskEv), (∀ e ∈ pre, e = TaskEv.cancel) → TaskEv.cancel ∈ pre →
      (pre.foldl taskStep initialRunState).promise = .rejected .cancelled ∧
        (pre.foldl taskStep initialRunState).cancelPromise = false
  | [], _, hmem => absurd hmem (List.not_mem_nil _)
  | e :: rest, hall, _ => by
    have he : e = TaskEv.cancel := hall e (List.mem_cons_self _ _)
    subst he
    rw [List.foldl_cons]
    have hstep : taskStep initialRunState .cancel =
        ⟨false, .rejected .cancelled, 1⟩ := rfl
    rw [hstep]
    exact foldl_taskStep_settled rest _ rfl (by intro h; cases h)

/-- Claim C3: if cancel() is invoked after run() has reached the suspension
point but before setLocalDescription resolves, run() fails with the
cancellation error instead of completing, whatever happens afterwards; the
endpoint's commit is invoked exactly once per run under every event sequence;
invoking cancel after the commit has successfully resolved leaves the
successful outcome unchanged; and the cancellation error is distinguishable
from an endpoint rejection and from completion. -/
theorem claim_C3_theorem :
    (∀ (pre post : List TaskEv) (ok : Bool),
      (∀ e ∈ pre, e = TaskEv.cancel) → TaskEv.cancel ∈ pre →
      (runTask (pre ++ TaskEv.commitReturn ok :: post)).promise =
        .rejected .cancelled) ∧
    (∀ evs : List TaskEv, (runTask evs).commitCalls = 1) ∧
    (∀ post : List TaskEv,
      (runTask (TaskEv.commitReturn true :: post)).promise = .resolvedOk) ∧
    TaskError.cancelled ≠ TaskError.endpoint ∧
    (∀ e : TaskError, PromiseState.rejected e ≠ PromiseState.resolvedOk) := by
  refine ⟨?_, ?_, ?_, ?_, ?_⟩
  · intro pre post ok hall hmem
    unfold runTask
    rw [List.foldl_append, List.foldl_cons]
    obtain ⟨h1, h2⟩ := cancel_events_reject pre hall hmem
    have h3 : (taskStep (pre.foldl taskStep initialRunState)
        (.commitReturn ok)).promise = .rejected .cancelled := by
      simp [taskStep, h1, settle]
    have h4 : (taskStep (pre.foldl taskStep initialRunState)
        (.commitReturn ok)).cancelPromise = false := rfl
    have := foldl_taskStep_settled post _ h4 (by rw [h3]; intro h; cases h)
    rw [h3] at this
    exact this.1
  · intro evs
    exact foldl_taskStep_commitCalls evs initialRunState
  · intro post
    unfold runTask
    rw [List.foldl_cons]
    have hstep : taskStep initialRunState (.commitReturn true) =
        ⟨false, .resolvedOk, 1⟩ := rfl
    rw [hstep]
    exact (foldl_taskStep_settled post _ rfl (by intro h; cases h)).1
  · intro h
    cases h
  · intro e h
    cases h

/-- Witness for claim C3: a cancel invocation arriving before the commit
resolves makes the concrete run fail with the cancellation error. -/
theorem claim_C3_witness :
    (runTask [TaskEv.cancel, TaskEv.commitReturn true]).promise =
      .rejected .cancelled :=
  claim_C3_theorem.1 [TaskEv.cancel] [] true (by decide) (by decide)

/-- Helper: updateTransceiverController only touches the encoding map and the
installed sender encoding; every policy-proper field is untouched. -/
theorem updateTransceiverController_frame (s : NScaleVideoUplinkBandwidthPolicy) :
    s.updateTransceiverController.1.parametersInEffect = s.parametersInEffect ∧
    s.updateTransceiverController.1.optimalParameters = s.optimalParameters ∧
    s.updateTransceiverController.1.wantsResubscribeForVideoCodecPreferenceChange =
      s.wantsResubscribeForVideoCodecPreferenceChange ∧
    s.updateTransceiverController.1.videoCodecPreferences = s.videoCodecPreferences ∧
    s.updateTransceiverController.1.idealMaxBandwidthKbps = s.idealMaxBandwidthKbps ∧
    s.updateTransceiverController.1.hasBandwidthPriority = s.hasBandwidthPriority ∧
    s.updateTransceiverController.1.numParticipants = s.numParticipants := by
  obtain ⟨sa, sr, np, opt, pe, ib, hp, epm, tcf, vcp, flag⟩ := s
  cases tcf with
  | none => exact ⟨rfl, rfl, rfl, rfl, rfl, rfl, rfl⟩
  | some tc =>
    obtain ⟨hv, ts, se⟩ := tc
    cases ts with
    | none => exact ⟨rfl, rfl, rfl, rfl, rfl, rfl, rfl⟩
    | some st =>
      unfold NScaleVideoUplinkBandwidthPolicy.updateTransceiverController
      dsimp only
      split
      · exact ⟨rfl, rfl, rfl, rfl, rfl, rfl, rfl⟩
      · exact ⟨rfl, rfl, rfl, rfl, rfl, rfl, rfl⟩

/-- Helper: the pending codec-preference flag is set by setVideoCodecPreferences,
cleared by chooseVideoCodecPreferences and untouched by every other operation. -/
theorem applyOp_flag (s : NScaleVideoUplinkBandwidthPolicy) (op : PolicyOp) :
    (applyOp s op).wantsResubscribeForVideoCodecPreferenceChange =
      (if isSetVideoCodecPreferencesOp op then true
       else if isChooseVideoCodecPreferencesOp op then false
       else s.wantsResubscribeForVideoCodecPreferenceChange) := by
  cases op with
  | updateTransceiverController =>
    simpa [applyOp, isSetVideoCodecPreferencesOp, isChooseVideoCodecPreferencesOp]
      using (updateTransceiverController_frame s).2.2.1
  | _ =>
    simp [applyOp, isSetVideoCodecPreferencesOp, isChooseVideoCodecPreferencesOp,
      NScaleVideoUplinkBandwidthPolicy.updateIndex,
      NScaleVideoUplinkBandwidthPolicy.chooseCaptureAndEncodeParameters,
      NScaleVideoUplinkBandwidthPolicy.setIdealMaxBandwidthKbps,
      NScaleVideoUplinkBandwidthPolicy.setHasBandwidthPriority,
      NScaleVideoUplinkBandwidthPolicy.setTransceiverController,
      NScaleVideoUplinkBandwidthPolicy.setVideoCodecPreferences,
      NScaleVideoUplinkBandwidthPolicy.chooseVideoCodecPreferences]

/-- Helper: unfolding one operation off the end of a run. -/
theorem runOps_append (s : NScaleVideoUplinkBandwidthPolicy)
    (ops : List PolicyOp) (op : PolicyOp) :
    runOps s (ops ++ [op]) = applyOp (runOps s ops) op := by
  simp [runOps, List.foldl_append]

/-- Helper: after a trailing setVideoCodecPreferences a change is pending. -/
theorem codecPending_append_set (xs : List PolicyOp)
    (prefs : List VideoCodecCapability) :
    codecPreferenceChangePending (xs ++ [.setVideoCodecPreferences prefs]) = true := by
  simp [codecPreferenceChangePending, List.reverse_append, List.find?,
    isSetVideoCodecPreferencesOp]

/-- Helper: after a trailing chooseVideoCodecPreferences no change is pending. -/
theorem codecPending_append_choose (xs : List PolicyOp) :
    codecPreferenceChangePending (xs ++ [.chooseVideoCodecPreferences]) = false := by
  simp [codecPreferenceChangePending, List.reverse_append, List.find?,
    isSetVideoCodecPreferencesOp, isChooseVideoCodecPreferencesOp]

/-- Helper: operations other than set and choose leave pendingness unchanged. -/
theorem codecPending_append_other (xs : List PolicyOp) (op : PolicyOp)
    (h1 : isSetVideoCodecPreferencesOp op = false)
    (h2 : isChooseVideoCodecPreferencesOp op = false) :
    codecPreferenceChangePending (xs ++ [op]) = codecPreferenceChangePending xs := by
  simp [codecPreferenceChangePending, List.reverse_append, List.find?, h1, h2]

/-- Helper: over every operation sequence from a fresh policy, the stored flag
coincides with the trace-level pendingness predicate. -/
theorem runOps_flag (a : String) (sc : Bool) :
    ∀ ops : List PolicyOp,
      (runOps (NScaleVideoUplinkBandwidthPolicy.init a sc)
        ops).wantsResubscribeForVideoCodecPreferenceChange =
        codecPreferenceChangePending ops := by
  intro ops
  induction ops using List.reverseRecOn with
  | nil => rfl
  | append_singleton xs x ih =>
    rw [runOps_append, applyOp_flag]
    cases x with
    | setVideoCodecPreferences prefs =>
      rw [codecPending_append_set]
      simp [isSetVideoCodecPreferencesOp]
    | chooseVideoCodecPreferences =>
      rw [codecPending_append_choose]
      simp [isSetVideoCodecPreferencesOp, isChooseVideoCodecPreferencesOp]
    | updateIndex n =>
      rw [codecPending_append_other xs (.updateIndex n) rfl rfl]
      simpa [isSetVideoCodecPreferencesOp, isChooseVideoCodecPreferencesOp] using ih
    | wantsResubscribe =>
      rw [codecPending_append_other xs PolicyOp.wantsResubscribe rfl rfl]
      simpa [isSetVideoCodecPreferencesOp, isChooseVideoCodecPreferencesOp] using ih
    | maxBandwidthKbps =>
      rw [codecPending_append_other xs PolicyOp.maxBandwidthKbps rfl rfl]
      simpa [isSetVideoCodecPreferencesOp, isChooseVideoCodecPreferencesOp] using ih
    | chooseCaptureAndEncodeParameters =>
      rw [codecPending_append_other xs PolicyOp.chooseCaptureAndEncodeParameters rfl rfl]
      simpa [isSetVideoCodecPreferencesOp, isChooseVideoCodecPreferencesOp] using ih
    | setIdealMaxBandwidthKbps v =>
      rw [codecPending_append_other xs (.setIdealMaxBandwidthKbps v) rfl rfl]
      simpa [isSetVideoCodecPreferencesOp, isChooseVideoCodecPreferencesOp] using ih
    | setHasBandwidthPriority b =>
      rw [codecPending_append_other xs (.setHasBandwidthPriority b) rfl rfl]
      simpa [isSetVideoCodecPreferencesOp, isChooseVideoCodecPreferencesOp] using ih
    | setTransceiverController tc =>
      rw [codecPending_append_other xs (.setTransceiverController tc) rfl rfl]
      simpa [isSetVideoCodecPreferencesOp, isChooseVideoCodecPreferencesOp] using ih
    | updateTransceiverController =>
      rw [codecPending_append_other xs PolicyOp.updateTransceiverController rfl rfl]
      simpa [isSetVideoCodecPreferencesOp, isChooseVideoCodecPreferencesOp] using ih

/-- Claim C4: in every reachable policy state, wantsResubscribe() returns true
if and only if optimalParameters differs from parametersInEffect or a
codec-preference change is pending acknowledgment, that is,
setVideoCodecPreferences was called and chooseVideoCodecPreferences has not
been called since. -/
theorem claim_C4_theorem (a : String) (sc : Bool) (ops : List PolicyOp) :
    wantsResubscribe (runOps (NScaleVideoUplinkBandwidthPolicy.init a sc) ops) = true ↔
      ((runOps (NScaleVideoUplinkBandwidthPolicy.init a sc) ops).optimalParameters ≠
         (runOps (NScaleVideoUplinkBandwidthPolicy.init a sc) ops).parametersInEffect ∨
       codecPreferenceChangePending ops = true) := by
  simp only [wantsResubscribe, DefaultVideoAndEncodeParameter.equal,
    Bool.or_eq_true, Bool.not_eq_true', decide_eq_false_iff_not,
    runOps_flag a sc ops]
  constructor
  · rintro (h | h)
    · exact Or.inr h
    · exact Or.inl fun hne => h hne.symm
  · rintro (h | h)
    · exact Or.inr fun he => h he.symm
    · exact Or.inl h

/-- Claim C5: the computed encoding's scaleResolutionDownBy follows the claim's
formula, namely max(min(capturedHeight, capturedWidth) /
targetHeightArray[min(numParticipants, 25)], 1) exactly when numParticipants
exceeds 2, hasBandwidthPriority is off, resolution scaling is enabled and both
capture dimensions are known, and 1 in every other case; consequently it
differs from 1 only under those conditions. -/
theorem claim_C5_theorem (s : NScaleVideoUplinkBandwidthPolicy)
    (setting : MediaTrackSettings) :
    ((calculateEncodingParameters s setting).scaleResolutionDownBy =
      (match setting.width, setting.height with
       | some w, some h =>
         if 2 < s.numParticipants ∧ s.hasBandwidthPriority = false ∧
             s.scaleResolution = true then
           max (min h w /
             ((([0, 0, 0, 540, 540, 480, 480, 480, 480, 360, 360, 360, 360,
                 270, 270, 270, 270, 180, 180, 180, 180, 180, 180, 180, 180,
                 180] : List Int).getD (min s.numParticipants 25) 0 : Int) : ℚ)) 1
         else 1
       | _, _ => 1)) ∧
    ((calculateEncodingParameters s setting).scaleResolutionDownBy ≠ 1 →
      2 < s.numParticipants ∧ s.hasBandwidthPriority = false ∧
        s.scaleResolution = true ∧ setting.width ≠ none ∧ setting.height ≠ none) := by
  obtain ⟨ws, hs⟩ := setting
  have main : (calculateEncodingParameters s ⟨ws, hs⟩).scaleResolutionDownBy =
      (match (⟨ws, hs⟩ : MediaTrackSettings).width,
             (⟨ws, hs⟩ : MediaTrackSettings).height with
       | some w, some h =>
         if 2 < s.numParticipants ∧ s.hasBandwidthPriority = false ∧
             s.scaleResolution = true then
           max (min h w /
             ((([0, 0, 0, 540, 540, 480, 480, 480, 480, 360, 360, 360, 360,
                 270, 270, 270, 270, 180, 180, 180, 180, 180, 180, 180, 180,
                 180] : List Int).getD (min s.numParticipants 25) 0 : Int) : ℚ)) 1
         else 1
       | _, _ => 1) := by
    cases ws with
    | none => cases hs <;> rfl
    | some w =>
      cases hs with
      | none => rfl
      | some h =>
        by_cases h1 : 2 < s.numParticipants <;>
          by_cases h2 : s.hasBandwidthPriority = false <;>
            by_cases h3 : s.scaleResolution = true <;>
              simp [calculateEncodingParameters, targetHeightArray, h1, h2, h3,
                Bool.not_eq_false] at *
  refine ⟨main, ?_⟩
  intro hne
  rw [main] at hne
  cases ws with
  | none => cases hs <;> exact absurd rfl hne
  | some w =>
    cases hs with
    | none => exact absurd rfl hne
    | some h =>
      dsimp only at hne
      by_cases hc : 2 < s.numParticipants ∧ s.hasBandwidthPriority = false ∧
          s.scaleResolution = true
      · exact ⟨hc.1, hc.2.1, hc.2.2, by simp, by simp⟩
      · rw [if_neg hc] at hne
        exact absurd rfl hne

/-- Witness for claim C5: with three participants and a 1280 by 720 capture
the scale factor is not 1, and the theorem yields the activation conditions. -/
theorem claim_C5_witness :
    (calculateEncodingParameters exampleScaleState
      exampleSetting).scaleResolutionDownBy ≠ 1 ∧
    (2 < exampleScaleState.numParticipants ∧
      exampleScaleState.hasBandwidthPriority = false ∧
      exampleScaleState.scaleResolution = true ∧
      exampleSetting.width ≠ none ∧ exampleSetting.height ≠ none) := by
  have hne : (calculateEncodingParameters exampleScaleState
      exampleSetting).scaleResolutionDownBy ≠ 1 := by
    norm_num [calculateEncodingParameters, exampleScaleState, exampleSetting,
      init, targetHeightArray, maxBandwidthKbps, jsTrunc]
  exact ⟨hne, (claim_C5_theorem exampleScaleState exampleSetting).2 hne⟩

/-- Claim C6: after every updateIndex(videoIndex) call, numParticipants equals
the index's publishing count excluding self plus 1 exactly when local capture
is active (the code treats capture as active when no transceiver controller is
installed, else when the controller has a video input), and optimalParameters
has been recomputed from the new count: capture width 640 or 320 and height
384 or 192 by the five-participant threshold, frame rate 15, the bandwidth
formula at the new count, and the scale factor from the live capture settings
when present. -/
theorem claim_C6_theorem (s : NScaleVideoUplinkBandwidthPolicy) (count : Nat) :
    (s.updateIndex count).numParticipants =
      count + (match s.transceiverController with
               | none => 1
               | some tc => if tc.hasVideoInput = true then 1 else 0) ∧
    (s.updateIndex count).optimalParameters.cameraWidth =
      (if 4 < (s.updateIndex count).numParticipants then 320 else 640) ∧
    (s.updateIndex count).optimalParameters.cameraHeight =
      (if 4 < (s.updateIndex count).numParticipants then 192 else 384) ∧
    (s.updateIndex count).optimalParameters.cameraFrameRate = 15 ∧
    (s.updateIndex count).optimalParameters.maxEncodeBitrateKbps =
      maxBandwidthKbps (s.updateIndex count) ∧
    (s.updateIndex count).optimalParameters.isSimulcast = false ∧
    (s.updateIndex count).optimalParameters.scaleResolutionDownBy =
      (match getStreamCaptureSetting s with
       | some st =>
         (calculateEncodingParameters (s.updateIndex count) st).scaleResolutionDownBy
       | none => 1) := by
  obtain ⟨sa, sr, np, opt, pe, ib, hp, epm, tcf, vcp, flag⟩ := s
  cases tcf with
  | none => exact ⟨rfl, rfl, rfl, rfl, rfl, rfl, rfl⟩
  | some tc =>
    obtain ⟨hv, ts, se⟩ := tc
    cases ts with
    | none => exact ⟨rfl, rfl, rfl, rfl, rfl, rfl, rfl⟩
    | some st => exact ⟨rfl, rfl, rfl, rfl, rfl, rfl, rfl⟩

/-- Claim C7: parametersInEffect changes only through the commit call
chooseCaptureAndEncodeParameters(), which snapshots optimalParameters and
returns that copy; every other policy operation leaves parametersInEffect
unchanged. -/
theorem claim_C7_theorem :
    (∀ s : NScaleVideoUplinkBandwidthPolicy,
      (applyOp s PolicyOp.chooseCaptureAndEncodeParameters).parametersInEffect =
        s.optimalParameters ∧
      s.chooseCaptureAndEncodeParameters.2 = s.optimalParameters) ∧
    (∀ (s : NScaleVideoUplinkBandwidthPolicy) (op : PolicyOp),
      op ≠ PolicyOp.chooseCaptureAndEncodeParameters →
      (applyOp s op).parametersInEffect = s.parametersInEffect) := by
  constructor
  · intro s
    exact ⟨rfl, rfl⟩
  · intro s op hne
    cases op
    case chooseCaptureAndEncodeParameters => exact absurd rfl hne
    case updateTransceiverController => exact (updateTransceiverController_frame s).1
    all_goals rfl

/-- Witness for claim C7: updateIndex is not the commit call and leaves
parametersInEffect of a fresh policy unchanged. -/
theorem claim_C7_witness :
    PolicyOp.updateIndex 3 ≠ PolicyOp.chooseCaptureAndEncodeParameters ∧
    (applyOp (init "self" true) (PolicyOp.updateIndex 3)).parametersInEffect =
      (init "self" true).parametersInEffect :=
  ⟨by decide,
   claim_C7_theorem.2 (init "self" true) (PolicyOp.updateIndex 3) (by decide)⟩

/-- Claim C9: setVideoCodecPreferences(list) stores the list and raises the
pending-change flag; a subsequent chooseVideoCodecPreferences() returns
exactly the stored list and clears the flag, so that immediately after the
read the codec-preference component of wantsResubscribe() is gone and only the
parameter difference remains. -/
theorem claim_C9_theorem (s : NScaleVideoUplinkBandwidthPolicy)
    (preferences : List VideoCodecCapability) :
    (s.setVideoCodecPreferences preferences).videoCodecPreferences = preferences ∧
    (s.setVideoCodecPreferences
      preferences).wantsResubscribeForVideoCodecPreferenceChange = true ∧
    (s.setVideoCodecPreferences preferences).chooseVideoCodecPreferences.2 =
      preferences ∧
    (s.setVideoCodecPreferences
      preferences).chooseVideoCodecPreferences.1.wantsResubscribeForVideoCodecPreferenceChange =
      false ∧
    wantsResubscribe (s.setVideoCodecPreferences preferences).chooseVideoCodecPreferences.1 =
      !((s.setVideoCodecPreferences
          preferences).chooseVideoCodecPreferences.1.parametersInEffect.equal
        (s.setVideoCodecPreferences
          preferences).chooseVideoCodecPreferences.1.optimalParameters) :=
  ⟨rfl, rfl, rfl, rfl, rfl⟩

/-- Claim C10: setIdealMaxBandwidthKbps and setHasBandwidthPriority change
only their respective field: optimalParameters and parametersInEffect are
untouched, wantsResubscribe() is unchanged, and a later
chooseCaptureAndEncodeParameters() still returns the previously computed
optimalParameters, so the new ideal bandwidth or priority is not reflected
until the next updateIndex recomputes optimalParameters. -/
theorem claim_C10_theorem (s : NScaleVideoUplinkBandwidthPolicy) (v : ℚ) (b : Bool) :
    (s.setIdealMaxBandwidthKbps v).idealMaxBandwidthKbps = v ∧
    (s.setIdealMaxBandwidthKbps v).optimalParameters = s.optimalParameters ∧
    (s.setIdealMaxBandwidthKbps v).parametersInEffect = s.parametersInEffect ∧
    wantsResubscribe (s.setIdealMaxBandwidthKbps v) = wantsResubscribe s ∧
    (s.setIdealMaxBandwidthKbps v).chooseCaptureAndEncodeParameters.2 =
      s.optimalParameters ∧
    (s.setHasBandwidthPriority b).hasBandwidthPriority = b ∧
    (s.setHasBandwidthPriority b).optimalParameters = s.optimalParameters ∧
    (s.setHasBandwidthPriority b).parametersInEffect = s.parametersInEffect ∧
    wantsResubscribe (s.setHasBandwidthPriority b) = wantsResubscribe s ∧
    (s.setHasBandwidthPriority b).chooseCaptureAndEncodeParameters.2 =
      s.optimalParameters :=
  ⟨rfl, rfl, rfl, rfl, rfl, rfl, rfl, rfl, rfl, rfl⟩

/-- Claim C8: with a transceiver controller and live captured track settings
present, updateTransceiverController() recomputes the encoding with
maxBitrate equal to maxBandwidthKbps()*1000 together with the scale factor,
and pushes it to the send encoding exactly when it differs fieldwise from the
encoding currently installed on the sender (the last pushed value); when the
recomputed value equals the installed one, nothing is pushed and the state is
unchanged. -/
theorem claim_C8_theorem (s : NScaleVideoUplinkBandwidthPolicy)
    (tc : TransceiverControllerState) (st : MediaTrackSettings)
    (h1 : s.transceiverController = some tc) (h2 : tc.trackSettings = some st) :
    (calculateEncodingParameters s st).maxBitrate = maxBandwidthKbps s * 1000 ∧
    (s.updateTransceiverController.2 = true ↔
      (some (calculateEncodingParameters s st).maxBitrate ≠
         tc.senderEncoding.bind (fun e => e.maxBitrate) ∨
       some (calculateEncodingParameters s st).scaleResolutionDownBy ≠
         tc.senderEncoding.bind (fun e => e.scaleResolutionDownBy))) ∧
    (tc.senderEncoding =
        some ⟨some (calculateEncodingParameters s st).maxBitrate,
              some (calculateEncodingParameters s st).scaleResolutionDownBy⟩ →
      s.updateTransceiverController = (s, false)) ∧
    (s.updateTransceiverController.2 = true →
      s.updateTransceiverController.1.transceiverController =
        some { tc with
                senderEncoding :=
                  some ⟨some (calculateEncodingParameters s st).maxBitrate,
                        some (calculateEncodingParameters s st).scaleResolutionDownBy⟩ }) := by
  have hred : s.updateTransceiverController =
      (if shouldUpdateEndcodingParameters tc (calculateEncodingParameters s st) then
        ({ s with
            encodingParamMap :=
              some ⟨some (calculateEncodingParameters s st).maxBitrate,
                    some (calculateEncodingParameters s st).scaleResolutionDownBy⟩,
            transceiverController :=
              some { tc with
                senderEncoding :=
                  some ⟨some (calculateEncodingParameters s st).maxBitrate,
                        some (calculateEncodingParameters s st).scaleResolutionDownBy⟩ } },
          true)
      else (s, false)) := by
    unfold NScaleVideoUplinkBandwidthPolicy.updateTransceiverController
    simp only [h1, h2]
  refine ⟨rfl, ?_, ?_, ?_⟩
  · rw [hred]
    by_cases hs : shouldUpdateEndcodingParameters tc (calculateEncodingParameters s st) = true
    · rw [if_pos hs]
      simp only [shouldUpdateEndcodingParameters, Bool.or_eq_true,
        decide_eq_true_eq] at hs
      exact iff_of_true rfl hs
    · rw [if_neg hs]
      simp only [shouldUpdateEndcodingParameters, Bool.or_eq_true,
        decide_eq_true_eq, not_or] at hs
      push_neg at hs
      constructor
      · intro h
        exact absurd h (by simp)
      · intro h
        rcases h with h | h
        · exact absurd hs.1 h
        · exact absurd hs.2 h
  · intro hse
    rw [hred, if_neg]
    simp [shouldUpdateEndcodingParameters, hse]
  · intro hpush
    rw [hred] at hpush ⊢
    by_cases hs : shouldUpdateEndcodingParameters tc (calculateEncodingParameters s st) = true
    · rw [if_pos hs]
    · rw [if_neg hs] at hpush
      exact absurd hpush (by simp)

/-- Witness for claim C8: on a concrete policy whose sender has no encoding
installed yet, the recomputed encoding differs and is pushed. -/
theorem claim_C8_witness :
    examplePushState.transceiverController = some exampleTransceiver ∧
    exampleTransceiver.trackSettings = some ⟨some 1280, some 720⟩ ∧
    examplePushState.updateTransceiverController.2 = true := by
  refine ⟨rfl, rfl, ?_⟩
  refine (claim_C8_theorem examplePushState exampleTransceiver
    ⟨some 1280, some 720⟩ rfl rfl).2.1.mpr ?_
  left
  simp [exampleTransceiver]
